import Mathlib

/-!
Verification of the superhero-comparison core: the comparison engine
(backend `GET /api/superheroes/compare` handler and frontend
`getSafeStat` / `calculateWinner` in `App.js`) and the bounded-selection
reducer (`handleHeroSelection`).

Modelling conventions:
* JavaScript numbers are modelled as `ℚ`; a numeric value that is `NaN`
  is modelled as `none : Option ℚ` (so `Option ℚ` is the codomain of the
  JS `Number(...)` coercion, whose string case is kept abstract as a
  parameter `strNum : String → Option ℚ`).
* `undefined` (an absent key, or an absent `powerstats` object) is the
  `none` of the corresponding `Option`; JS `null` is the explicit
  constructor `JSVal.jnull`.
* The frontend `parseInt` host function is kept abstract as a parameter
  `pInt : JSVal → Option ℤ` (`none` = `NaN`).
* JS strict equality `===` on ids and winners is propositional equality,
  decided with `decide`.
-/

/-- The six canonical powerstat attribute names. -/
inductive Stat where
  | intelligence
  | strength
  | speed
  | durability
  | power
  | combat
deriving DecidableEq, Repr

/-- A raw JSON attribute value as it reaches the comparison code:
a number, a string, or JSON `null`. Absence (`undefined`) is modelled by
wrapping in `Option` at the use site. -/
inductive JSVal where
  | num (q : ℚ)
  | str (s : String)
  | jnull
deriving DecidableEq, Repr

/-- An entity record: id plus (possibly absent) powerstats mapping, each
attribute possibly absent. Name and image are irrelevant to the core. -/
structure Hero where
  id : ℚ
  powerstats : Option (Stat → Option JSVal)

/-- JS `Number(x)` on an optional attribute value:
`Number(undefined) = NaN`, `Number(null) = 0`, numbers unchanged, strings
through the abstract coercion `strNum` (`none` = `NaN`). -/
def jsToNumber (strNum : String → Option ℚ) : Option JSVal → Option ℚ
  | none => none
  | some (JSVal.num q) => some q
  | some (JSVal.str s) => strNum s
  | some JSVal.jnull => some 0

/-- Backend `Number(hero.powerstats?.[cat])`: if the `powerstats` object
is absent, the optional chain yields `undefined` and coercion gives `NaN`. -/
def statValue (strNum : String → Option ℚ) (h : Hero) (cat : Stat) : Option ℚ :=
  match h.powerstats with
  | none => none
  | some ps => jsToNumber strNum (ps cat)

/-- JS `>` on possibly-NaN numbers: any comparison with `NaN` is false. -/
def jsGt : Option ℚ → Option ℚ → Bool
  | some a, some b => decide (b < a)
  | _, _ => false

/-- Per-category or overall winner: hero 1, hero 2 or `"tie"`. -/
inductive Side where
  | one
  | two
  | tie
deriving DecidableEq, Repr

/-- One entry of the backend response's `categories` array. -/
structure CategoryResult where
  name : Stat
  winner : Side
  id1_value : Option ℚ
  id2_value : Option ℚ
deriving DecidableEq, Repr

/-- The backend's fixed `categoriesOrder` constant. -/
def categoriesOrder : List Stat :=
  [Stat.intelligence, Stat.strength, Stat.speed, Stat.durability, Stat.power, Stat.combat]

/-- One step of the backend `categoriesOrder.map (...)` body: raw `Number`
coercions of both powerstats, strictly-greater winner, raw values reported. -/
def compareCategory (strNum : String → Option ℚ) (hero1 hero2 : Hero)
    (cat : Stat) : CategoryResult :=
  let v1 := statValue strNum hero1 cat
  let v2 := statValue strNum hero2 cat
  { name := cat
    winner := if jsGt v1 v2 then Side.one else if jsGt v2 v1 then Side.two else Side.tie
    id1_value := v1
    id2_value := v2 }

/-- The backend's `categories` array. -/
def compareCategories (strNum : String → Option ℚ) (hero1 hero2 : Hero) :
    List CategoryResult :=
  categoriesOrder.map (compareCategory strNum hero1 hero2)

/-- `categories.filter(c => c.winner === 1).length`. -/
def hero1Wins (cats : List CategoryResult) : Nat :=
  (cats.filter (fun c => decide (c.winner = Side.one))).length

/-- `categories.filter(c => c.winner === 2).length`. -/
def hero2Wins (cats : List CategoryResult) : Nat :=
  (cats.filter (fun c => decide (c.winner = Side.two))).length

/-- `overall_winner = hero1Wins > hero2Wins ? 1 : hero2Wins > hero1Wins ? 2 : 'tie'`. -/
def overallWinner (cats : List CategoryResult) : Side :=
  if hero1Wins cats > hero2Wins cats then Side.one
  else if hero2Wins cats > hero1Wins cats then Side.two
  else Side.tie

/-- The backend response body on success. -/
structure CompareResult where
  id1 : ℚ
  id2 : ℚ
  categories : List CategoryResult
  overall_winner : Side
deriving DecidableEq, Repr

/-- The spec's `compare(entityA, entityB)` as the backend realises it. -/
def compareHeroes (strNum : String → Option ℚ) (hero1 hero2 : Hero) : CompareResult :=
  { id1 := hero1.id
    id2 := hero2.id
    categories := compareCategories strNum hero1 hero2
    overall_winner := overallWinner (compareCategories strNum hero1 hero2) }

/-- Outcome of the compare endpoint: HTTP 400 with `{ error, status }`
JSON body, or HTTP 200 with a `CompareResult` body. -/
inductive CompareOutcome where
  | badRequest (error : String) (status : String)
  | ok (r : CompareResult)
deriving DecidableEq, Repr

/-- JS falsiness of `req.query.id1` (a string or `undefined`): falsy iff
missing or the empty string. -/
def qFalsy : Option String → Bool
  | none => true
  | some s => decide (s = "")

/-- `Number(id1)` for a query parameter: `Number(undefined) = NaN`. -/
def jsQueryNum (strNum : String → Option ℚ) : Option String → Option ℚ
  | none => none
  | some s => strNum s

/-- The `GET /api/superheroes/compare` handler: falsy-parameter check,
then `Number.isNaN` check, then store lookup of both ids, then the
category map and overall winner. -/
def compareHandler (strNum : String → Option ℚ) (store : List Hero)
    (id1 id2 : Option String) : CompareOutcome :=
  if qFalsy id1 || qFalsy id2 then
    CompareOutcome.badRequest "Both id1 and id2 query parameters are required" "invalid_request"
  else
    match jsQueryNum strNum id1, jsQueryNum strNum id2 with
    | some id1Num, some id2Num =>
      match store.find? (fun h => decide (h.id = id1Num)),
            store.find? (fun h => decide (h.id = id2Num)) with
      | some hero1, some hero2 =>
        CompareOutcome.ok
          { id1 := id1Num
            id2 := id2Num
            categories := compareCategories strNum hero1 hero2
            overall_winner := overallWinner (compareCategories strNum hero1 hero2) }
      | _, _ =>
        CompareOutcome.badRequest "One or both superheroes not found" "invalid_request"
    | _, _ =>
      CompareOutcome.badRequest "id1 and id2 must be valid numbers" "invalid_request"

/-- Frontend `getSafeStat(hero, stat)`: `0` when `powerstats` is falsy or
the attribute is `null`/`undefined`; otherwise `parseInt`, with `NaN`
defaulted to `0`. -/
def getSafeStat (pInt : JSVal → Option ℤ) (hero : Hero) (stat : Stat) : ℤ :=
  match hero.powerstats with
  | none => 0
  | some ps =>
    match ps stat with
    | none => 0
    | some JSVal.jnull => 0
    | some v =>
      match pInt v with
      | none => 0
      | some n => n

/-- The frontend's `stats` constant inside `calculateWinner`. -/
def stats : List Stat :=
  [Stat.intelligence, Stat.strength, Stat.speed, Stat.durability, Stat.power, Stat.combat]

/-- Result of the frontend `calculateWinner`: the winning hero (or `null`
for a tie) and the score string. -/
structure WinnerResult where
  winner : Option Hero
  score : String

/-- Frontend `calculateWinner(hero1, hero2)`: count stats where one safe
value strictly exceeds the other, then majority verdict with a
`"{big}-{small}"` score string. -/
def calculateWinner (pInt : JSVal → Option ℤ) (hero1 hero2 : Hero) : WinnerResult :=
  let hero1Score :=
    (stats.filter (fun st => decide (getSafeStat pInt hero2 st < getSafeStat pInt hero1 st))).length
  let hero2Score :=
    (stats.filter (fun st => decide (getSafeStat pInt hero1 st < getSafeStat pInt hero2 st))).length
  if hero1Score > hero2Score then
    { winner := some hero1, score := toString hero1Score ++ "-" ++ toString hero2Score }
  else if hero2Score > hero1Score then
    { winner := some hero2, score := toString hero2Score ++ "-" ++ toString hero1Score }
  else
    { winner := none, score := toString hero1Score ++ "-" ++ toString hero2Score }

/-- Frontend `handleHeroSelection` state update: remove if the id is
already selected, append if fewer than two are selected, otherwise keep
the second selection and append (`[prev[1], hero]`). -/
def handleHeroSelection (prev : List Hero) (hero : Hero) : List Hero :=
  if prev.any (fun h => decide (h.id = hero.id)) then
    prev.filter (fun h => decide (h.id ≠ hero.id))
  else if prev.length < 2 then
    prev ++ [hero]
  else
    [prev.getD 1 hero, hero]

/-- Selection events: a toggle (checkbox change) or the clear issued by
`handleBackToTable`. -/
inductive SelEvent where
  | toggle (hero : Hero)
  | clear

/-- One reducer step. -/
def selStep (s : List Hero) : SelEvent → List Hero
  | SelEvent.toggle hero => handleHeroSelection s hero
  | SelEvent.clear => []

/-- Run the selection reducer from the empty selection. -/
def runSel (events : List SelEvent) : List Hero :=
  events.foldl selStep []

/-- Modelled from the spec: the "safe numeric read" the spec §4.1 claims
the comparison engine applies — `NaN`/absent coerces to `0`. Used only to
compare the spec's demanded behaviour with the backend's actual one. -/
def specSafeNumericRead (strNum : String → Option ℚ) (h : Hero) (cat : Stat) : ℚ :=
  match statValue strNum h cat with
  | none => 0
  | some q => q

/-- Modelled from the spec: the per-category winner the spec's safe-read
rule would produce. -/
def specCategoryWinner (strNum : String → Option ℚ) (hero1 hero2 : Hero)
    (cat : Stat) : Side :=
  let v1 := specSafeNumericRead strNum hero1 cat
  let v2 := specSafeNumericRead strNum hero2 cat
  if v1 > v2 then Side.one else if v2 > v1 then Side.two else Side.tie

/-- Concrete instances used by witnesses and counterexamples. -/
def strNumDemo : String → Option ℚ := fun s => if s = "1" then some 1 else none

def demoHero : Hero := { id := 1, powerstats := some (fun _ => some (JSVal.num 5)) }

def heroAbsent : Hero := { id := 3, powerstats := some (fun _ => none) }

def demoStore : List Hero := [demoHero]

def demoSelfResult : CompareResult :=
  { id1 := 1
    id2 := 1
    categories := compareCategories strNumDemo demoHero demoHero
    overall_winner := overallWinner (compareCategories strNumDemo demoHero demoHero) }

/-- Side flip `1 ↔ 2`, ties fixed. -/
def flipSide : Side → Side
  | Side.one => Side.two
  | Side.two => Side.one
  | Side.tie => Side.tie

/-- The structural mirror of a category result: winner flipped, value
pair swapped. -/
def flipCategory (c : CategoryResult) : CategoryResult :=
  { name := c.name
    winner := flipSide c.winner
    id1_value := c.id2_value
    id2_value := c.id1_value }

def pIntNone : JSVal → Option ℤ := fun _ => none

/-- The selection invariant of the spec: at most two entries, no
duplicate ids. -/
def selInvariant (s : List Hero) : Prop :=
  s.length ≤ 2 ∧ (s.map Hero.id).Nodup

def heroX : Hero := { id := 10, powerstats := none }

def heroY : Hero := { id := 20, powerstats := none }

def heroZ : Hero := { id := 30, powerstats := none }

/-- C7: for all entities, the categories array has exactly 6 entries in
the fixed canonical order, regardless of the attribute data. -/
theorem compare_categories_canonical (strNum : String → Option ℚ) (h1 h2 : Hero) :
    ((compareHeroes strNum h1 h2).categories.map CategoryResult.name) =
      [Stat.intelligence, Stat.strength, Stat.speed, Stat.durability, Stat.power, Stat.combat]
    ∧ (compareHeroes strNum h1 h2).categories.length = 6 := by
  exact ⟨rfl, rfl⟩

lemma jsGt_none_left (v : Option ℚ) : jsGt none v = false := by
  cases v <;> rfl

lemma jsGt_none_right (v : Option ℚ) : jsGt v none = false := by
  cases v <;> rfl

lemma jsGt_self (v : Option ℚ) : jsGt v v = false := by
  cases v with
  | none => rfl
  | some q => simp [jsGt]

lemma jsGt_asymm (a b : Option ℚ) (h : jsGt a b = true) : jsGt b a = false := by
  cases a with
  | none => simp [jsGt_none_left] at h
  | some x =>
    cases b with
    | none => exact jsGt_none_left _
    | some y =>
      simp [jsGt] at h ⊢
      exact le_of_lt h

/-- C3: whenever either side's raw powerstat coerces to `NaN`, the backend
category winner is a tie no matter what the other side holds, and the
reported value for the NaN side is the raw coercion result, not `0`. -/
theorem compare_nan_category_tie (strNum : String → Option ℚ) (h1 h2 : Hero) (cat : Stat)
    (hnan : statValue strNum h1 cat = none ∨ statValue strNum h2 cat = none) :
    (compareCategory strNum h1 h2 cat).winner = Side.tie
    ∧ (compareCategory strNum h1 h2 cat).id1_value = statValue strNum h1 cat
    ∧ (compareCategory strNum h1 h2 cat).id2_value = statValue strNum h2 cat
    ∧ (statValue strNum h1 cat = none → (compareCategory strNum h1 h2 cat).id1_value ≠ some 0)
    ∧ (statValue strNum h2 cat = none → (compareCategory strNum h1 h2 cat).id2_value ≠ some 0) := by
  unfold compareCategory
  rcases hnan with h | h <;>
    simp [h, jsGt_none_left, jsGt_none_right] <;>
    (intro hn; simp [hn])

theorem compare_nan_category_tie_witness :
    (compareCategory strNumDemo heroAbsent demoHero Stat.strength).winner = Side.tie
    ∧ (compareCategory strNumDemo heroAbsent demoHero Stat.strength).id1_value =
        statValue strNumDemo heroAbsent Stat.strength
    ∧ (compareCategory strNumDemo heroAbsent demoHero Stat.strength).id2_value =
        statValue strNumDemo demoHero Stat.strength
    ∧ (statValue strNumDemo heroAbsent Stat.strength = none →
        (compareCategory strNumDemo heroAbsent demoHero Stat.strength).id1_value ≠ some 0)
    ∧ (statValue strNumDemo demoHero Stat.strength = none →
        (compareCategory strNumDemo heroAbsent demoHero Stat.strength).id2_value ≠ some 0) :=
  compare_nan_category_tie strNumDemo heroAbsent demoHero Stat.strength (Or.inl rfl)

lemma overallWinner_spec (cats : List CategoryResult) :
    (overallWinner cats = Side.one ∨ overallWinner cats = Side.two
      ∨ overallWinner cats = Side.tie)
    ∧ (hero1Wins cats > hero2Wins cats ↔ overallWinner cats = Side.one)
    ∧ (hero2Wins cats > hero1Wins cats ↔ overallWinner cats = Side.two)
    ∧ (overallWinner cats = Side.tie ↔ hero1Wins cats = hero2Wins cats) := by
  unfold overallWinner
  split_ifs with h₁ h₂ <;> simp_all <;> omega

/-- C8: the overall winner is the majority-of-categories verdict — it is
one of `1`, `2`, `"tie"`; it is side `1` iff side 1 won strictly more
categories, side `2` iff side 2 did, and `"tie"` iff the win counts are
equal. -/
theorem overall_winner_majority (strNum : String → Option ℚ) (h1 h2 : Hero) :
    ((compareHeroes strNum h1 h2).overall_winner = Side.one
      ∨ (compareHeroes strNum h1 h2).overall_winner = Side.two
      ∨ (compareHeroes strNum h1 h2).overall_winner = Side.tie)
    ∧ (hero1Wins (compareHeroes strNum h1 h2).categories >
        hero2Wins (compareHeroes strNum h1 h2).categories ↔
        (compareHeroes strNum h1 h2).overall_winner = Side.one)
    ∧ (hero2Wins (compareHeroes strNum h1 h2).categories >
        hero1Wins (compareHeroes strNum h1 h2).categories ↔
        (compareHeroes strNum h1 h2).overall_winner = Side.two)
    ∧ ((compareHeroes strNum h1 h2).overall_winner = Side.tie ↔
        hero1Wins (compareHeroes strNum h1 h2).categories =
          hero2Wins (compareHeroes strNum h1 h2).categories) :=
  overallWinner_spec (compareCategories strNum h1 h2)

lemma selfCategories_tie (strNum : String → Option ℚ) (h : Hero) :
    ∀ c ∈ compareCategories strNum h h, c.winner = Side.tie := by
  intro c hc
  simp only [compareCategories, List.mem_map] at hc
  obtain ⟨cat, _, rfl⟩ := hc
  simp [compareCategory, jsGt_self]

lemma overall_self_tie (strNum : String → Option ℚ) (h : Hero) :
    overallWinner (compareCategories strNum h h) = Side.tie := by
  have hall := selfCategories_tie strNum h
  have h1 : hero1Wins (compareCategories strNum h h) = 0 := by
    unfold hero1Wins
    rw [List.length_eq_zero, List.filter_eq_nil_iff]
    intro c hc
    simp [hall c hc]
  have h2 : hero2Wins (compareCategories strNum h h) = 0 := by
    unfold hero2Wins
    rw [List.length_eq_zero, List.filter_eq_nil_iff]
    intro c hc
    simp [hall c hc]
  unfold overallWinner
  rw [h1, h2]
  simp

/-- C9: invoking the compare endpoint with two identical id parameters is
permitted; whenever it succeeds, every category winner and the overall
winner is `"tie"`. -/
theorem compare_self_all_tie (strNum : String → Option ℚ) (store : List Hero)
    (q : Option String) (r : CompareResult)
    (hok : compareHandler strNum store q q = CompareOutcome.ok r) :
    (∀ c ∈ r.categories, c.winner = Side.tie) ∧ r.overall_winner = Side.tie := by
  unfold compareHandler at hok
  split at hok
  · exact CompareOutcome.noConfusion hok
  · split at hok
    case _ id1Num id2Num e1 e2 =>
      split at hok
      case _ hero1 hero2 f1 f2 =>
        have hnum : id1Num = id2Num := by
          rw [e1] at e2
          exact Option.some.inj e2
        subst hnum
        have hhero : hero1 = hero2 := by
          rw [f1] at f2
          exact Option.some.inj f2
        subst hhero
        have hr : r =
            { id1 := id1Num
              id2 := id1Num
              categories := compareCategories strNum hero1 hero1
              overall_winner := overallWinner (compareCategories strNum hero1 hero1) } :=
          (CompareOutcome.ok.inj hok).symm
        subst hr
        exact ⟨selfCategories_tie strNum hero1, overall_self_tie strNum hero1⟩
      case _ =>
        exact CompareOutcome.noConfusion hok
    case _ =>
      exact CompareOutcome.noConfusion hok

theorem compare_self_all_tie_witness :
    (∀ c ∈ demoSelfResult.categories, c.winner = Side.tie)
    ∧ demoSelfResult.overall_winner = Side.tie :=
  compare_self_all_tie strNumDemo demoStore (some "1") demoSelfResult (by decide)

lemma ite_winner_flip (v1 v2 : Option ℚ) :
    (if jsGt v2 v1 then Side.one else if jsGt v1 v2 then Side.two else Side.tie)
      = flipSide (if jsGt v1 v2 then Side.one else if jsGt v2 v1 then Side.two else Side.tie) := by
  cases ha : jsGt v1 v2
  · cases hb : jsGt v2 v1 <;> simp [ha, hb, flipSide]
  · rw [jsGt_asymm _ _ ha]
    simp [ha, flipSide]

lemma compareCategory_swap (strNum : String → Option ℚ) (h1 h2 : Hero) (cat : Stat) :
    compareCategory strNum h2 h1 cat = flipCategory (compareCategory strNum h1 h2 cat) := by
  simp only [compareCategory, flipCategory, CategoryResult.mk.injEq, true_and, and_true]
  exact ite_winner_flip _ _

lemma compareCategories_swap (strNum : String → Option ℚ) (h1 h2 : Hero) :
    compareCategories strNum h2 h1 = (compareCategories strNum h1 h2).map flipCategory := by
  simp only [compareCategories, categoriesOrder, List.map_cons, List.map_nil,
    compareCategory_swap strNum h1 h2]

lemma hero1Wins_map_flip (cats : List CategoryResult) :
    hero1Wins (cats.map flipCategory) = hero2Wins cats := by
  unfold hero1Wins hero2Wins
  rw [← List.countP_eq_length_filter, ← List.countP_eq_length_filter, List.countP_map]
  apply List.countP_congr
  intro c _
  cases hw : c.winner <;> simp [Function.comp, flipCategory, flipSide, hw]

lemma hero2Wins_map_flip (cats : List CategoryResult) :
    hero2Wins (cats.map flipCategory) = hero1Wins cats := by
  unfold hero1Wins hero2Wins
  rw [← List.countP_eq_length_filter, ← List.countP_eq_length_filter, List.countP_map]
  apply List.countP_congr
  intro c _
  cases hw : c.winner <;> simp [Function.comp, flipCategory, flipSide, hw]

lemma overallWinner_map_flip (cats : List CategoryResult) :
    overallWinner (cats.map flipCategory) = flipSide (overallWinner cats) := by
  unfold overallWinner
  rw [hero1Wins_map_flip, hero2Wins_map_flip]
  split_ifs <;> first | rfl | (exfalso; omega)

/-- C6: `compare(A,B)` and `compare(B,A)` are structural mirror images —
categories flip winners and swap value pairs, the overall winner flips,
the ids swap; the frontend `calculateWinner` is invariant under swapping
its arguments (same winning hero, same score string). -/
theorem compare_mirror (strNum : String → Option ℚ) (pInt : JSVal → Option ℤ)
    (h1 h2 : Hero) :
    (compareHeroes strNum h2 h1).categories =
      (compareHeroes strNum h1 h2).categories.map flipCategory
    ∧ (compareHeroes strNum h2 h1).overall_winner =
      flipSide (compareHeroes strNum h1 h2).overall_winner
    ∧ (compareHeroes strNum h2 h1).id1 = (compareHeroes strNum h1 h2).id2
    ∧ (compareHeroes strNum h2 h1).id2 = (compareHeroes strNum h1 h2).id1
    ∧ calculateWinner pInt h2 h1 = calculateWinner pInt h1 h2 := by
  refine ⟨compareCategories_swap strNum h1 h2, ?_, rfl, rfl, ?_⟩
  · show overallWinner (compareCategories strNum h2 h1) =
      flipSide (overallWinner (compareCategories strNum h1 h2))
    rw [compareCategories_swap strNum h1 h2, overallWinner_map_flip]
  · simp only [calculateWinner]
    set s1 := (stats.filter
      (fun st => decide (getSafeStat pInt h2 st < getSafeStat pInt h1 st))).length with hs1
    set s2 := (stats.filter
      (fun st => decide (getSafeStat pInt h1 st < getSafeStat pInt h2 st))).length with hs2
    split_ifs <;> first
      | rfl
      | (exfalso; omega)
      | (have he : s1 = s2 := by omega
         rw [he])

/-- C1 (amended): in the frontend engine, `getSafeStat` yields `0`
whenever the powerstats object is absent, the attribute is `null` or
absent, or `parseInt` fails (`NaN`); being a total function it never
raises. (The backend categories map does not share this defaulting — see
the counterexample and C3.) -/
theorem getSafeStat_default_zero (pInt : JSVal → Option ℤ) (h : Hero) (st : Stat)
    (hbad : h.powerstats = none
      ∨ (∃ ps, h.powerstats = some ps ∧
          (ps st = none ∨ ps st = some JSVal.jnull
            ∨ ∃ v, ps st = some v ∧ pInt v = none))) :
    getSafeStat pInt h st = 0 := by
  rcases hbad with h0 | ⟨ps, hps, hcase⟩
  · simp [getSafeStat, h0]
  · rcases hcase with hn | hj | ⟨v, hv, hpv⟩
    · simp [getSafeStat, hps, hn]
    · simp [getSafeStat, hps, hj]
    · cases v <;> simp [getSafeStat, hps, hv, hpv]

theorem getSafeStat_default_zero_witness :
    getSafeStat pIntNone heroAbsent Stat.intelligence = 0 :=
  getSafeStat_default_zero pIntNone heroAbsent Stat.intelligence
    (Or.inr ⟨fun _ => none, rfl, Or.inl rfl⟩)

/-- Counterexample to C1 as stated: in the backend comparison engine
(`categories` map of the compare handler), an absent attribute is NOT
treated as `0` — against a present value `5` the safe-zero rule demanded
by the spec would award the category to side 2, but the code yields a tie
and reports the NaN coercion result rather than `0`. -/
theorem backend_not_zero_defaulting :
    (compareCategory strNumDemo heroAbsent demoHero Stat.intelligence).winner = Side.tie
    ∧ specCategoryWinner strNumDemo heroAbsent demoHero Stat.intelligence = Side.two
    ∧ Side.tie ≠ Side.two
    ∧ (compareCategory strNumDemo heroAbsent demoHero Stat.intelligence).id1_value ≠ some 0 :=
  ⟨by decide, by decide, by decide, by decide⟩

/-- C2: missing or NaN-coercing id parameters produce a 400
`invalid_request` response whose error message differs from the
not-found message, and the comparison engine is never invoked (no
`CompareResult` is produced); resolvable numeric ids that fail the store
lookup produce the not-found message, also without invoking the engine. -/
theorem handler_invalid_distinct_from_not_found
    (strNum : String → Option ℚ) (store : List Hero) (id1 id2 : Option String) :
    ((qFalsy id1 = true ∨ qFalsy id2 = true
        ∨ jsQueryNum strNum id1 = none ∨ jsQueryNum strNum id2 = none) →
      ∃ msg, compareHandler strNum store id1 id2 =
          CompareOutcome.badRequest msg "invalid_request"
        ∧ msg ≠ "One or both superheroes not found"
        ∧ ∀ r, compareHandler strNum store id1 id2 ≠ CompareOutcome.ok r)
    ∧ (∀ n1 n2, qFalsy id1 = false → qFalsy id2 = false →
        jsQueryNum strNum id1 = some n1 → jsQueryNum strNum id2 = some n2 →
        (store.find? (fun h => decide (h.id = n1)) = none
          ∨ store.find? (fun h => decide (h.id = n2)) = none) →
        compareHandler strNum store id1 id2 =
          CompareOutcome.badRequest "One or both superheroes not found" "invalid_request"
        ∧ ∀ r, compareHandler strNum store id1 id2 ≠ CompareOutcome.ok r) := by
  constructor
  · intro hbad
    have hEq : ∃ msg, compareHandler strNum store id1 id2 =
        CompareOutcome.badRequest msg "invalid_request"
        ∧ msg ≠ "One or both superheroes not found" := by
      unfold compareHandler
      by_cases hf : (qFalsy id1 || qFalsy id2) = true
      · rw [if_pos hf]
        exact ⟨_, rfl, by decide⟩
      · rw [if_neg hf]
        have hnum : jsQueryNum strNum id1 = none ∨ jsQueryNum strNum id2 = none := by
          rcases hbad with h | h | h | h
          · exact absurd (by simp [h]) hf
          · exact absurd (by simp [h]) hf
          · exact Or.inl h
          · exact Or.inr h
        rcases hx1 : jsQueryNum strNum id1 with _ | n1 <;>
          rcases hx2 : jsQueryNum strNum id2 with _ | n2
        · exact ⟨_, rfl, by decide⟩
        · exact ⟨_, rfl, by decide⟩
        · exact ⟨_, rfl, by decide⟩
        · rcases hnum with h | h
          · rw [hx1] at h
            exact Option.noConfusion h
          · rw [hx2] at h
            exact Option.noConfusion h
    obtain ⟨msg, hEq, hne⟩ := hEq
    refine ⟨msg, hEq, hne, fun r hok => ?_⟩
    rw [hEq] at hok
    exact CompareOutcome.noConfusion hok
  · intro n1 n2 hf1 hf2 h1 h2 hfind
    have hEq : compareHandler strNum store id1 id2 =
        CompareOutcome.badRequest "One or both superheroes not found" "invalid_request" := by
      have hs : compareHandler strNum store id1 id2 =
          match store.find? (fun h => decide (h.id = n1)),
                store.find? (fun h => decide (h.id = n2)) with
          | some hero1, some hero2 =>
            CompareOutcome.ok
              { id1 := n1
                id2 := n2
                categories := compareCategories strNum hero1 hero2
                overall_winner := overallWinner (compareCategories strNum hero1 hero2) }
          | _, _ =>
            CompareOutcome.badRequest "One or both superheroes not found" "invalid_request" := by
        unfold compareHandler
        rw [if_neg (by simp [hf1, hf2]), h1, h2]
      rw [hs]
      rcases hfind with hn | hn
      · rcases hx : store.find? (fun h => decide (h.id = n2)) with _ | hero2 <;> rw [hn]
      · rcases hx : store.find? (fun h => decide (h.id = n1)) with _ | hero1 <;> rw [hn, hx]
    refine ⟨hEq, fun r hok => ?_⟩
    rw [hEq] at hok
    exact CompareOutcome.noConfusion hok

theorem handler_invalid_witness :
    ∃ msg, compareHandler strNumDemo demoStore (some "abc") (some "1") =
        CompareOutcome.badRequest msg "invalid_request"
      ∧ msg ≠ "One or both superheroes not found"
      ∧ ∀ r, compareHandler strNumDemo demoStore (some "abc") (some "1") ≠
          CompareOutcome.ok r :=
  (handler_invalid_distinct_from_not_found strNumDemo demoStore
      (some "abc") (some "1")).1
    (Or.inr (Or.inr (Or.inl (by decide))))

lemma any_id_iff (s : List Hero) (e : Hero) :
    s.any (fun x => decide (x.id = e.id)) = true ↔ e.id ∈ s.map Hero.id := by
  simp [List.any_eq_true, List.mem_map]

lemma toggle_preserves (s : List Hero) (e : Hero) (h : selInvariant s) :
    selInvariant (handleHeroSelection s e) := by
  unfold handleHeroSelection
  by_cases hp : s.any (fun x => decide (x.id = e.id)) = true
  · rw [if_pos hp]
    refine ⟨le_trans (List.length_filter_le _ _) h.1, ?_⟩
    exact List.Nodup.sublist (List.Sublist.map _ (List.filter_sublist _)) h.2
  · rw [if_neg hp]
    have hmem : e.id ∉ s.map Hero.id := fun hmem => hp ((any_id_iff s e).mpr hmem)
    by_cases hl : s.length < 2
    · rw [if_pos hl]
      refine ⟨?_, ?_⟩
      · rw [List.length_append]
        simp only [List.length_singleton]
        omega
      · rw [List.map_append, List.nodup_append]
        refine ⟨h.2, List.nodup_singleton _, ?_⟩
        intro a ha hb
        simp only [List.map_cons, List.map_nil, List.mem_singleton] at hb
        rw [hb] at ha
        exact hmem ha
    · rw [if_neg hl]
      have h2 : 1 < s.length := by omega
      rcases s with _ | ⟨a, rest⟩
      · simp at h2
      rcases rest with _ | ⟨b, t⟩
      · simp at h2
      have hne : b.id ≠ e.id :=
        fun hEq => hmem (List.mem_map.mpr ⟨b, by simp, hEq⟩)
      exact ⟨by simp, by simp [hne]⟩

lemma foldl_selInvariant (evs : List SelEvent) :
    ∀ s : List Hero, selInvariant s → selInvariant (evs.foldl selStep s) := by
  induction evs with
  | nil => exact fun s h => h
  | cons ev t ih =>
    intro s h
    rw [List.foldl_cons]
    apply ih
    cases ev with
    | toggle hero => exact toggle_preserves s hero h
    | clear => exact ⟨Nat.zero_le 2, List.nodup_nil⟩

/-- C4: from the empty selection, any sequence of toggle and clear events
keeps the selection at size at most 2 with pairwise distinct ids. -/
theorem selection_invariant (events : List SelEvent) :
    (runSel events).length ≤ 2 ∧ ((runSel events).map Hero.id).Nodup :=
  foldl_selInvariant events [] ⟨Nat.zero_le 2, List.nodup_nil⟩

lemma toggle_full_not_present (a b e : Hero) (ha : a.id ≠ e.id) (hb : b.id ≠ e.id) :
    handleHeroSelection [a, b] e = [b, e] := by
  simp [handleHeroSelection, ha, hb]

/-- C5: with two selected and a third, not-selected entity toggled, the
oldest (index 0) member is evicted and the new entity appended; in
particular toggling three distinct entities from empty leaves the last two. -/
theorem sliding_window_eviction :
    (∀ a b e : Hero, a.id ≠ e.id → b.id ≠ e.id →
      handleHeroSelection [a, b] e = [b, e])
    ∧ (∀ x y z : Hero, x.id ≠ y.id → x.id ≠ z.id → y.id ≠ z.id →
      runSel [SelEvent.toggle x, SelEvent.toggle y, SelEvent.toggle z] = [y, z]) := by
  constructor
  · exact toggle_full_not_present
  · intro x y z hxy hxz hyz
    show handleHeroSelection (handleHeroSelection (handleHeroSelection [] x) y) z = [y, z]
    have h1 : handleHeroSelection [] x = [x] := rfl
    have h2 : handleHeroSelection [x] y = [x, y] := by
      simp [handleHeroSelection, hxy]
    rw [h1, h2]
    exact toggle_full_not_present x y z hxz hyz

theorem sliding_window_eviction_witness :
    handleHeroSelection [heroX, heroY] heroZ = [heroY, heroZ]
    ∧ runSel [SelEvent.toggle heroX, SelEvent.toggle heroY, SelEvent.toggle heroZ] =
        [heroY, heroZ] :=
  ⟨sliding_window_eviction.1 heroX heroY heroZ (by decide) (by decide),
   sliding_window_eviction.2 heroX heroY heroZ (by decide) (by decide) (by decide)⟩

lemma toggle_present_eq (s : List Hero) (e : Hero) (hp : e.id ∈ s.map Hero.id) :
    handleHeroSelection s e = s.filter (fun x => decide (x.id ≠ e.id)) := by
  unfold handleHeroSelection
  rw [if_pos ((any_id_iff s e).mpr hp)]

lemma filter_ne_length (s : List Hero) (e : Hero)
    (hnd : (s.map Hero.id).Nodup) (hp : e.id ∈ s.map Hero.id) :
    (s.filter (fun x => decide (x.id ≠ e.id))).length + 1 = s.length := by
  induction s with
  | nil => simp at hp
  | cons a t ih =>
    rw [List.map_cons, List.nodup_cons] at hnd
    rw [List.map_cons] at hp
    rcases List.mem_cons.mp hp with hEq | hmem
    · have ha : a.id = e.id := hEq.symm
      rw [List.filter_cons, if_neg (by simp [ha])]
      have ht : t.filter (fun x => decide (x.id ≠ e.id)) = t := by
        rw [List.filter_eq_self]
        intro x hx
        simp only [decide_eq_true_eq]
        intro hxe
        exact hnd.1 (List.mem_map.mpr ⟨x, hx, by rw [hxe, ← ha]⟩)
      rw [ht]
      simp
    · have ha : a.id ≠ e.id := fun hc => hnd.1 (hc ▸ hmem)
      rw [List.filter_cons, if_pos (by simp [ha])]
      have := ih hnd.2 hmem
      simp only [List.length_cons]
      omega

lemma filter_ne_not_mem (s : List Hero) (e : Hero) :
    e.id ∉ (s.filter (fun x => decide (x.id ≠ e.id))).map Hero.id := by
  intro h
  rw [List.mem_map] at h
  obtain ⟨x, hx, hxe⟩ := h
  rw [List.mem_filter] at hx
  have hne := hx.2
  simp only [decide_eq_true_eq] at hne
  exact hne hxe

lemma toggle_not_present_last (r : List Hero) (e : Hero)
    (hnp : e.id ∉ r.map Hero.id) :
    (handleHeroSelection r e).getLast? = some e := by
  unfold handleHeroSelection
  rw [if_neg (fun hc => hnp ((any_id_iff r e).mp hc))]
  by_cases hl : r.length < 2
  · rw [if_pos hl, List.getLast?_concat]
  · rw [if_neg hl]
    rfl

/-- C10: toggling an entity whose id is selected removes it (size drops
by exactly 1 and its id is gone); toggling it again re-adds it at the
most-recent (last) position; and a toggle of a not-present entity never
shrinks the selection — removal happens only through the present-entity
toggle (or the external clear). -/
theorem toggle_removes_and_readds :
    (∀ (s : List Hero) (e : Hero), s.length ≤ 2 → (s.map Hero.id).Nodup →
      e.id ∈ s.map Hero.id →
      (handleHeroSelection s e).length + 1 = s.length
      ∧ e.id ∉ (handleHeroSelection s e).map Hero.id
      ∧ (handleHeroSelection (handleHeroSelection s e) e).getLast? = some e)
    ∧ (∀ (s : List Hero) (e : Hero), s.length ≤ 2 → e.id ∉ s.map Hero.id →
        s.length ≤ (handleHeroSelection s e).length) := by
  constructor
  · intro s e _ hnd hp
    rw [toggle_present_eq s e hp]
    refine ⟨filter_ne_length s e hnd hp, filter_ne_not_mem s e, ?_⟩
    exact toggle_not_present_last _ e (filter_ne_not_mem s e)
  · intro s e hle hnp
    unfold handleHeroSelection
    rw [if_neg (fun hc => hnp ((any_id_iff s e).mp hc))]
    by_cases hl : s.length < 2
    · rw [if_pos hl]
      simp
    · rw [if_neg hl]
      simp only [List.length_cons, List.length_singleton]
      omega

theorem toggle_removes_and_readds_witness :
    ((handleHeroSelection [heroX, heroY] heroX).length + 1 =
        ([heroX, heroY] : List Hero).length
      ∧ heroX.id ∉ (handleHeroSelection [heroX, heroY] heroX).map Hero.id
      ∧ (handleHeroSelection (handleHeroSelection [heroX, heroY] heroX) heroX).getLast? =
          some heroX)
    ∧ ([heroX] : List Hero).length ≤ (handleHeroSelection [heroX] heroY).length :=
  ⟨toggle_removes_and_readds.1 [heroX, heroY] heroX (by decide) (by decide) (by decide),
   toggle_removes_and_readds.2 [heroX] heroY (by decide) (by decide)⟩
